import Mathlib

/-!
Verification of the trade persistence and reconciliation core
(`services/horizon/internal/db2/history/trade.go`).

The Go code is shallowly embedded: pure fragments become Lean functions,
the SQL builder state becomes an explicit record of accumulated predicates,
orderings and limit, and the database fetches are passed in as explicit
lists or an explicit `run` function.  Machine integers (`int64`, `int32`)
are embedded as `Int`; none of the verified properties depend on overflow
behaviour.
-/

/-- Embedding of a wall-clock timestamp (`time.Time`).  `sec` is the value
returned by `Unix()`; `nsec` stands for every further piece of the internal
representation (sub-second part, monotonic clock reading, location), which
`reflect.DeepEqual` would observe but `Unix()` does not. -/
@[ext]
structure Timestamp where
  sec : Int
  nsec : Int
  deriving DecidableEq

/-- The value of `time.Time.Unix()`: seconds only. -/
def Timestamp.unix (t : Timestamp) : Int := t.sec

/-- Embedding of the `Trade` row shape selected by `selectTradeFields`:
one field per selected column, in the order of the SELECT list.
`base_offer_id`, `counter_offer_id`, `price_n` and `price_d` are nullable
(`null.Int`), hence `Option Int`. -/
@[ext]
structure Trade where
  historyOperationId : Int
  order : Int
  ledgerCloseTime : Timestamp
  offerId : Int
  baseOfferId : Option Int
  baseAccount : String
  baseAssetType : String
  baseAssetCode : String
  baseAssetIssuer : String
  baseAmount : Int
  counterOfferId : Option Int
  counterAccount : String
  counterAssetType : String
  counterAssetCode : String
  counterAssetIssuer : String
  counterAmount : Int
  baseIsSeller : Bool
  priceN : Option Int
  priceD : Option Int
  deriving DecidableEq

/-- Embedding of `selectReverseTradeFields`: the read-time reverse
projection.  Base and counter offer ids, accounts, asset type/code/issuer
and amounts are exchanged, `base_is_seller` is negated, and `price_n` /
`price_d` are swapped; `history_operation_id`, `order`, `ledger_closed_at`
and `offer_id` are kept as they are. -/
def reverseTradeProjection (t : Trade) : Trade :=
  { t with
    baseOfferId := t.counterOfferId
    baseAccount := t.counterAccount
    baseAssetType := t.counterAssetType
    baseAssetCode := t.counterAssetCode
    baseAssetIssuer := t.counterAssetIssuer
    baseAmount := t.counterAmount
    counterOfferId := t.baseOfferId
    counterAccount := t.baseAccount
    counterAssetType := t.baseAssetType
    counterAssetCode := t.baseAssetCode
    counterAssetIssuer := t.baseAssetIssuer
    counterAmount := t.baseAmount
    baseIsSeller := !t.baseIsSeller
    priceN := t.priceD
    priceD := t.priceN }

/-- The per-row normalisation performed inside the loop of
`CheckExpTrades`: the candidate row's close time is overwritten with the
primary row's (so that only `Unix()` equality matters), and when the two
rows disagree on `base_is_seller` the orientation swap of lines 390-398 is
applied to the candidate row. -/
def normalizeExpTrade (t e : Trade) : Trade :=
  let e1 : Trade := { e with ledgerCloseTime := t.ledgerCloseTime }
  if e1.baseIsSeller != t.baseIsSeller then
    { e1 with
      baseOfferId := e1.counterOfferId
      counterOfferId := e1.baseOfferId
      baseAccount := e1.counterAccount
      counterAccount := e1.baseAccount
      baseAssetType := e1.counterAssetType
      counterAssetType := e1.baseAssetType
      baseAssetCode := e1.counterAssetCode
      counterAssetCode := e1.baseAssetCode
      baseAssetIssuer := e1.counterAssetIssuer
      counterAssetIssuer := e1.baseAssetIssuer
      baseAmount := e1.counterAmount
      counterAmount := e1.baseAmount
      priceN := e1.priceD
      priceD := e1.priceN
      baseIsSeller := t.baseIsSeller }
  else
    e1

/-- One iteration of the comparison loop of `CheckExpTrades`: the saved
candidate close time must agree with the primary one at second
granularity, and after normalisation the rows must be `DeepEqual`. -/
def tradePairMatches (t e : Trade) : Bool :=
  (e.ledgerCloseTime.unix == t.ledgerCloseTime.unix) &&
    (normalizeExpTrade t e == t)

/-- Embedding of `CheckExpTrades`, applied to the two already-fetched trade
sequences (primary `history_trades` first, experimental
`exp_history_trades` second), both ordered ascending as fetched by
`ForLedger(seq, "asc")`. -/
def checkExpTrades (trades expTrades : List Trade) : Bool :=
  if trades.length == 0 || expTrades.length == 0 then
    true
  else if trades.length != expTrades.length then
    false
  else
    (trades.zip expTrades).all fun p => tradePairMatches p.1 p.2

/-- Specification-side relation: the two rows agree on every field except
possibly the ledger close time. -/
def tradesEqExceptTime (t e : Trade) : Prop :=
  e.historyOperationId = t.historyOperationId ∧
  e.order = t.order ∧
  e.offerId = t.offerId ∧
  e.baseOfferId = t.baseOfferId ∧
  e.baseAccount = t.baseAccount ∧
  e.baseAssetType = t.baseAssetType ∧
  e.baseAssetCode = t.baseAssetCode ∧
  e.baseAssetIssuer = t.baseAssetIssuer ∧
  e.baseAmount = t.baseAmount ∧
  e.counterOfferId = t.counterOfferId ∧
  e.counterAccount = t.counterAccount ∧
  e.counterAssetType = t.counterAssetType ∧
  e.counterAssetCode = t.counterAssetCode ∧
  e.counterAssetIssuer = t.counterAssetIssuer ∧
  e.counterAmount = t.counterAmount ∧
  e.baseIsSeller = t.baseIsSeller ∧
  e.priceN = t.priceN ∧
  e.priceD = t.priceD

instance (t e : Trade) : Decidable (tradesEqExceptTime t e) := by
  unfold tradesEqExceptTime; infer_instance

/-- Specification-side relation for one primary/candidate row pair: close
times agree at second granularity, and the rows are either field-for-field
equal (close time aside) or differ exactly by opposite canonical
orientation, i.e. the reverse projection of the candidate row equals the
primary row on every non-time field. -/
def goodTradePair (t e : Trade) : Prop :=
  e.ledgerCloseTime.unix = t.ledgerCloseTime.unix ∧
  (tradesEqExceptTime t e ∨ tradesEqExceptTime t (reverseTradeProjection e))

instance (t e : Trade) : Decidable (goodTradePair t e) := by
  unfold goodTradePair; infer_instance

/-- Error value recorded in `TradesQ.Err`.  Only the invalid-cursor case is
relevant to the verified properties. -/
inductive QueryError where
  | invalidCursorError
  deriving DecidableEq

/-- Digit value of a character, or `none` when it is not a decimal digit. -/
def digitVal? (c : Char) : Option Nat :=
  if c.isDigit then some (c.toNat - 48) else none

/-- Reads a non-empty all-digit character list as a decimal number. -/
def parseDecimal? (cs : List Char) : Option Nat :=
  match cs with
  | [] => none
  | _ =>
    cs.foldl
      (fun acc c =>
        match acc, digitVal? c with
        | some n, some d => some (n * 10 + d)
        | _, _ => none)
      (some 0)

/-- Splits a character list at every occurrence of the separator character
`-` (the pair separator `db2.DefaultPairSep`). -/
def splitOnDash (cs : List Char) (acc : List Char) : List (List Char) :=
  match cs with
  | [] => [acc.reverse]
  | c :: rest =>
    if c = '-' then acc.reverse :: splitOnDash rest [] else splitOnDash rest (c :: acc)

/-- Modelled from the spec: `PageQuery.CursorInt64Pair` of the `db2`
package is not under `src/`.  Per the spec's cursor wire format, the
cursor string is "<int64>-<int64>"; it decodes to the two-integer pair
`(op, idx)` and any malformed token is rejected with
`InvalidCursorError`. -/
def cursorInt64Pair (cursor : String) : Except QueryError (Int × Int) :=
  match splitOnDash cursor.toList [] with
  | [l, r] =>
    match parseDecimal? l, parseDecimal? r with
    | some li, some ri => Except.ok ((li : Int), (ri : Int))
    | _, _ => Except.error QueryError.invalidCursorError
  | _ => Except.error QueryError.invalidCursorError

/-- Embedding of `db2.PageQuery`: pagination parameters of a query. -/
structure PageQuery where
  cursor : String
  order : String
  limit : Nat

/-- Direction-tagged `ORDER BY htrd.history_operation_id <dir>, htrd.order
<dir>` clause, the only ordering shape this file emits. -/
inductive TradeOrdering where
  | byOpIdAndOrder (dir : String)
  deriving DecidableEq

/-- Abstract state of the squirrel `SelectBuilder` as far as the verified
properties observe it: the accumulated WHERE predicates over the
`(history_operation_id, "order")` columns, the accumulated ORDER BY
clauses, and the LIMIT. -/
structure SelectBuilder where
  wheres : List (Int → Int → Prop)
  orderBys : List TradeOrdering
  limit : Option Nat

/-- Embedding of `TradesQ`: the pending error plus the SQL builder. -/
structure TradesQ where
  err : Option QueryError
  sql : SelectBuilder

/-- A fresh builder as produced by `Q.Trades()`: no pending error, no
filter, no ordering, no limit. -/
def tradesQ0 : TradesQ :=
  { err := none, sql := { wheres := [], orderBys := [], limit := none } }

/-- The WHERE predicate Page adds for ascending order:
`history_operation_id >= op AND (history_operation_id > op OR
(history_operation_id = op AND "order" > idx))`. -/
def pageWhereAsc (op idx : Int) (opid ord : Int) : Prop :=
  opid ≥ op ∧ (opid > op ∨ (opid = op ∧ ord > idx))

/-- The WHERE predicate Page adds for descending order: the mirrored
strict-less comparison. -/
def pageWhereDesc (op idx : Int) (opid ord : Int) : Prop :=
  opid ≤ op ∧ (opid < op ∨ (opid = op ∧ ord < idx))

/-- Strict lexicographic order on `(history_operation_id, "order")`
pairs. -/
def lexLt (a b : Int × Int) : Prop :=
  a.1 < b.1 ∨ (a.1 = b.1 ∧ a.2 < b.2)

/-- Largest `int32` value, used to clamp the second cursor component. -/
def maxInt32 : Int := 2147483647

/-- Embedding of `TradesQ.Page`: returns unchanged on a pending error,
records a cursor parse error, clamps `idx` to 32 bits, adds the compound
cursor predicate and ordering for `asc` / `desc` (and nothing in any other
case), and finally applies the row limit. -/
def Page (q : TradesQ) (pq : PageQuery) : TradesQ :=
  if q.err.isSome then q
  else
    match cursorInt64Pair pq.cursor with
    | Except.error e => { q with err := some e }
    | Except.ok (op, idx0) =>
      let idx := if idx0 > maxInt32 then maxInt32 else idx0
      let q1 :=
        match pq.order with
        | "asc" =>
          { q with sql := { q.sql with
              wheres := q.sql.wheres ++ [pageWhereAsc op idx]
              orderBys := q.sql.orderBys ++ [TradeOrdering.byOpIdAndOrder "asc"] } }
        | "desc" =>
          { q with sql := { q.sql with
              wheres := q.sql.wheres ++ [pageWhereDesc op idx]
              orderBys := q.sql.orderBys ++ [TradeOrdering.byOpIdAndOrder "desc"] } }
        | _ => q
      { q1 with sql := { q1.sql with limit := some pq.limit } }

/-- Embedding of `TradesQ.Select`: a pending error is returned as-is and
the store is never consulted; otherwise the built query is run against the
store, represented by the explicit `run` function. -/
def selectTrades (q : TradesQ)
    (run : SelectBuilder → Except QueryError (List Trade)) :
    Except QueryError (List Trade) :=
  match q.err with
  | some e => Except.error e
  | none => run q.sql

/-- Modelled from the spec: `toid.ID{LedgerSequence: seq}.ToInt64()` of
the `toid` package is not under `src/`.  Per the spec, the operation id is
a composite ordinal encoding the ledger sequence and the position inside
the ledger; the id of a ledger sequence alone carries the sequence in the
high 32 bits with zero transaction/operation parts. -/
def toidForLedger (seq : Int) : Int := seq * 4294967296

/-- An operation id belongs to ledger `l` exactly when it lies between the
composite ordinal of `l` (inclusive) and that of `l + 1` (exclusive). -/
def opidBelongsToLedger (l opid : Int) : Prop :=
  toidForLedger l ≤ opid ∧ opid < toidForLedger (l + 1)

/-- The WHERE predicate `ForLedger` adds:
`history_operation_id >= from AND history_operation_id <= to` with
`from = toid(seq)` and `to = toid(seq + 1)`. -/
def forLedgerWhere (seq : Int) (opid : Int) : Prop :=
  toidForLedger seq ≤ opid ∧ opid ≤ toidForLedger (seq + 1)

/-- Embedding of `TradesQ.ForLedger`: adds the operation-id range filter
for the ledger sequence and orders by
`history_operation_id <order>, "order" <order>`. -/
def ForLedger (q : TradesQ) (sequence : Int) (ord : String) : TradesQ :=
  { q with sql := { q.sql with
      wheres := q.sql.wheres ++ [fun opid _ => forLedgerWhere sequence opid]
      orderBys := q.sql.orderBys ++ [TradeOrdering.byOpIdAndOrder ord] } }

/-- The two offer-id namespaces: `CoreOfferIDType` for persistent on-chain
offers and `TOIDType` for synthetic operation-derived offers. -/
inductive OfferIDType where
  | CoreOfferIDType
  | TOIDType
  deriving DecidableEq

/-- Modelled from the spec: `EncodeOfferId` of the offer-id codec is not
under `src/`.  Per the spec it maps the raw 64-bit id into the storage
space with a reserved namespace tag bit, so that the two namespaces never
collide; the verified properties only pass its results through. -/
def EncodeOfferId (rawId : Int) (ty : OfferIDType) : Int :=
  match ty with
  | OfferIDType.CoreOfferIDType => rawId
  | OfferIDType.TOIDType => rawId + 9223372036854775808

/-- Embedding of `xdr.Price`: a rational price `n / d`. -/
structure Price where
  n : Int
  d : Int
  deriving DecidableEq

/-- Modelled from the spec: `xdr.Price.Invert` is not under `src/`.  Per
the spec it swaps the numerator and the denominator. -/
def Price.invert (p : Price) : Price := { n := p.d, d := p.n }

/-- Embedding of `getCanonicalAssetOrder`: `(true, id1, id2)` when
`id1 < id2`, else `(false, id2, id1)`. -/
def getCanonicalAssetOrder (assetId1 assetId2 : Int) : Bool × Int × Int :=
  if assetId1 < assetId2 then
    (true, assetId1, assetId2)
  else
    (false, assetId2, assetId1)

/-- The row inserted by `InsertTrade`, one field per column of
`tradesInsert`, in column order. -/
@[ext]
structure InsertedTradeRow where
  historyOperationId : Int
  order : Int
  ledgerClosedAt : Int
  offerId : Int
  baseOfferId : Int
  baseAccountId : Int
  baseAssetId : Int
  baseAmount : Int
  counterOfferId : Int
  counterAccountId : Int
  counterAssetId : Int
  counterAmount : Int
  baseIsSeller : Bool
  priceN : Int
  priceD : Int
  deriving DecidableEq

/-- Embedding of `Q.InsertTrade`, from the point where the external
resolvers have produced the seller/buyer account ids and the sold/bought
asset ids (the resolver calls themselves are the external get-or-create
service).  `tradeOfferId` is `trade.OfferId`, `amountSold` and
`amountBought` are `trade.AmountSold` / `trade.AmountBought`, and
`buyOfferId` is `buyOffer.OfferId`.  Returns the row handed to the single
INSERT statement. -/
def InsertTrade (opid : Int) (order : Int)
    (sellerAccountId buyerAccountId soldAssetId boughtAssetId : Int)
    (tradeOfferId amountSold amountBought : Int)
    (buyOfferExists : Bool) (buyOfferId : Int)
    (sellPrice : Price) (ledgerClosedAt : Int) : InsertedTradeRow :=
  let sellOfferId := EncodeOfferId tradeOfferId OfferIDType.CoreOfferIDType
  let buyOfferIdEnc :=
    if buyOfferExists then EncodeOfferId buyOfferId OfferIDType.CoreOfferIDType
    else EncodeOfferId opid OfferIDType.TOIDType
  let c := getCanonicalAssetOrder soldAssetId boughtAssetId
  let orderPreserved := c.1
  let baseAssetId := c.2.1
  let counterAssetId := c.2.2
  if orderPreserved then
    { historyOperationId := opid
      order := order
      ledgerClosedAt := ledgerClosedAt
      offerId := tradeOfferId
      baseOfferId := sellOfferId
      baseAccountId := sellerAccountId
      baseAssetId := baseAssetId
      baseAmount := amountSold
      counterOfferId := buyOfferIdEnc
      counterAccountId := buyerAccountId
      counterAssetId := counterAssetId
      counterAmount := amountBought
      baseIsSeller := orderPreserved
      priceN := sellPrice.n
      priceD := sellPrice.d }
  else
    let inverted := sellPrice.invert
    { historyOperationId := opid
      order := order
      ledgerClosedAt := ledgerClosedAt
      offerId := tradeOfferId
      baseOfferId := buyOfferIdEnc
      baseAccountId := buyerAccountId
      baseAssetId := baseAssetId
      baseAmount := amountBought
      counterOfferId := sellOfferId
      counterAccountId := sellerAccountId
      counterAssetId := counterAssetId
      counterAmount := amountSold
      baseIsSeller := orderPreserved
      priceN := inverted.n
      priceD := inverted.d }

/-- Sample primary-pipeline row: the canonical orientation of a trade of
50 units of the native asset against 20 units of USD at price 2/5. -/
def tPrimary : Trade :=
  { historyOperationId := 100
    order := 0
    ledgerCloseTime := { sec := 1000, nsec := 5 }
    offerId := 7
    baseOfferId := some 1
    baseAccount := "GA"
    baseAssetType := "native"
    baseAssetCode := ""
    baseAssetIssuer := ""
    baseAmount := 50
    counterOfferId := some 2
    counterAccount := "GB"
    counterAssetType := "credit_alphanum4"
    counterAssetCode := "USD"
    counterAssetIssuer := "GI"
    counterAmount := 20
    baseIsSeller := true
    priceN := some 2
    priceD := some 5 }

/-- Sample candidate-pipeline row: the same logical trade as `tPrimary`
stored in the opposite canonical orientation, with a close time that
agrees only at second granularity. -/
def tCandidate : Trade :=
  { historyOperationId := 100
    order := 0
    ledgerCloseTime := { sec := 1000, nsec := 999 }
    offerId := 7
    baseOfferId := some 2
    baseAccount := "GB"
    baseAssetType := "credit_alphanum4"
    baseAssetCode := "USD"
    baseAssetIssuer := "GI"
    baseAmount := 20
    counterOfferId := some 1
    counterAccount := "GA"
    counterAssetType := "native"
    counterAssetCode := ""
    counterAssetIssuer := ""
    counterAmount := 50
    baseIsSeller := false
    priceN := some 5
    priceD := some 2 }

/-- Sample page query with a malformed cursor. -/
def pqMalformed : PageQuery := { cursor := "foo", order := "asc", limit := 10 }

/-- Sample page query with a well-formed cursor and an unknown order
direction. -/
def pqOddDirection : PageQuery := { cursor := "100-1", order := "sideways", limit := 7 }

/-- Sample page query with a malformed cursor and an unknown order
direction. -/
def pqBadBoth : PageQuery := { cursor := "bad", order := "sideways", limit := 10 }

/-- The implementation's per-pair check agrees with the specification-side
relation `goodTradePair`. -/
theorem tradePairMatches_iff (t e : Trade) :
    tradePairMatches t e = true ↔ goodTradePair t e := by
  cases hbt : t.baseIsSeller <;> cases hbe : e.baseIsSeller <;>
    simp [tradePairMatches, normalizeExpTrade, goodTradePair,
      tradesEqExceptTime, reverseTradeProjection, Timestamp.unix,
      Trade.ext_iff, hbt, hbe]

/-- C1: for every trade recorded by `InsertTrade`, when the sold asset's
internal id is less than the bought asset's, the stored row has the seller
on the base side (base account, base amount = amount sold, base offer id =
sell offer id), the buyer on the counter side, the sell price as given and
`base_is_seller = true`; when the sold asset's id is greater, the sides
are swapped (buyer becomes base), the price numerator and denominator are
swapped before storing, and `base_is_seller = false`. -/
theorem insertTrade_sides
    (opid order sellerAccountId buyerAccountId soldAssetId boughtAssetId : Int)
    (tradeOfferId amountSold amountBought : Int)
    (buyOfferExists : Bool) (buyOfferId : Int)
    (sellPrice : Price) (ledgerClosedAt : Int) :
    (soldAssetId < boughtAssetId →
      InsertTrade opid order sellerAccountId buyerAccountId soldAssetId boughtAssetId
          tradeOfferId amountSold amountBought buyOfferExists buyOfferId
          sellPrice ledgerClosedAt =
        { historyOperationId := opid
          order := order
          ledgerClosedAt := ledgerClosedAt
          offerId := tradeOfferId
          baseOfferId := EncodeOfferId tradeOfferId OfferIDType.CoreOfferIDType
          baseAccountId := sellerAccountId
          baseAssetId := soldAssetId
          baseAmount := amountSold
          counterOfferId :=
            if buyOfferExists then EncodeOfferId buyOfferId OfferIDType.CoreOfferIDType
            else EncodeOfferId opid OfferIDType.TOIDType
          counterAccountId := buyerAccountId
          counterAssetId := boughtAssetId
          counterAmount := amountBought
          baseIsSeller := true
          priceN := sellPrice.n
          priceD := sellPrice.d }) ∧
    (boughtAssetId < soldAssetId →
      InsertTrade opid order sellerAccountId buyerAccountId soldAssetId boughtAssetId
          tradeOfferId amountSold amountBought buyOfferExists buyOfferId
          sellPrice ledgerClosedAt =
        { historyOperationId := opid
          order := order
          ledgerClosedAt := ledgerClosedAt
          offerId := tradeOfferId
          baseOfferId :=
            if buyOfferExists then EncodeOfferId buyOfferId OfferIDType.CoreOfferIDType
            else EncodeOfferId opid OfferIDType.TOIDType
          baseAccountId := buyerAccountId
          baseAssetId := boughtAssetId
          baseAmount := amountBought
          counterOfferId := EncodeOfferId tradeOfferId OfferIDType.CoreOfferIDType
          counterAccountId := sellerAccountId
          counterAssetId := soldAssetId
          counterAmount := amountSold
          baseIsSeller := false
          priceN := sellPrice.d
          priceD := sellPrice.n }) := by
  constructor
  · intro h
    simp [InsertTrade, getCanonicalAssetOrder, h]
  · intro h
    have h2 : ¬ soldAssetId < boughtAssetId := by omega
    simp [InsertTrade, getCanonicalAssetOrder, h2, Price.invert]

/-- Witness for C1: Scenario A (sold asset id 3 < bought asset id 7 keeps
the seller on the base side with price 2/5) and Scenario B (sold asset id
9 > bought asset id 4 swaps sides and inverts the price to 5/2). -/
theorem insertTrade_sides_witness :
    (3 : Int) < 7 ∧
    InsertTrade 100 0 11 22 3 7 555 50 20 true 666 { n := 2, d := 5 } 0 =
      { historyOperationId := 100, order := 0, ledgerClosedAt := 0, offerId := 555,
        baseOfferId := 555, baseAccountId := 11, baseAssetId := 3, baseAmount := 50,
        counterOfferId := 666, counterAccountId := 22, counterAssetId := 7,
        counterAmount := 20, baseIsSeller := true, priceN := 2, priceD := 5 } ∧
    (4 : Int) < 9 ∧
    InsertTrade 100 0 11 22 9 4 555 50 20 true 666 { n := 2, d := 5 } 0 =
      { historyOperationId := 100, order := 0, ledgerClosedAt := 0, offerId := 555,
        baseOfferId := 666, baseAccountId := 22, baseAssetId := 4, baseAmount := 20,
        counterOfferId := 555, counterAccountId := 11, counterAssetId := 9,
        counterAmount := 50, baseIsSeller := false, priceN := 5, priceD := 2 } :=
  ⟨by norm_num,
   (insertTrade_sides 100 0 11 22 3 7 555 50 20 true 666 { n := 2, d := 5 } 0).1
     (by norm_num),
   by norm_num,
   (insertTrade_sides 100 0 11 22 9 4 555 50 20 true 666 { n := 2, d := 5 } 0).2
     (by norm_num)⟩

/-- C5: for distinct asset ids, `getCanonicalAssetOrder` returns
`(true, idA, idB)` when `idA < idB` and `(false, idB, idA)` otherwise, and
the two argument orders yield the same base/counter pair with opposite
order-preserved flags. -/
theorem getCanonicalAssetOrder_spec (a b : Int) (hab : a ≠ b) :
    (a < b → getCanonicalAssetOrder a b = (true, a, b)) ∧
    (b < a → getCanonicalAssetOrder a b = (false, b, a)) ∧
    (getCanonicalAssetOrder a b).2 = (getCanonicalAssetOrder b a).2 ∧
    (getCanonicalAssetOrder a b).1 = !(getCanonicalAssetOrder b a).1 := by
  rcases lt_or_gt_of_ne hab with h | h
  · have h2 : ¬ b < a := by omega
    simp [getCanonicalAssetOrder, h, h2]
  · have h2 : ¬ a < b := by omega
    simp [getCanonicalAssetOrder, h, h2]

/-- Witness for C5 at the asset id pair (3, 7). -/
theorem getCanonicalAssetOrder_spec_witness :
    (3 : Int) ≠ 7 ∧
    getCanonicalAssetOrder 3 7 = (true, 3, 7) ∧
    (getCanonicalAssetOrder 3 7).2 = (getCanonicalAssetOrder 7 3).2 ∧
    (getCanonicalAssetOrder 3 7).1 = !(getCanonicalAssetOrder 7 3).1 :=
  ⟨by norm_num,
   (getCanonicalAssetOrder_spec 3 7 (by norm_num)).1 (by norm_num),
   (getCanonicalAssetOrder_spec 3 7 (by norm_num)).2.2.1,
   (getCanonicalAssetOrder_spec 3 7 (by norm_num)).2.2.2⟩

/-- C6: applying the reverse-projection field swap twice returns the
original row. -/
theorem reverseTradeProjection_involutive (t : Trade) :
    reverseTradeProjection (reverseTradeProjection t) = t := by
  simp [reverseTradeProjection]

/-- C2: for equal-length fetched sequences whose corresponding rows agree
on close time at second granularity and are either field-for-field equal
(close time aside) or differ only by opposite canonical orientation
(mirrored fields with swapped price), `CheckExpTrades` reports true; if
some corresponding pair still disagrees after the timestamp and
orientation normalisation, it reports false. -/
theorem checkExpTrades_matches (ts es : List Trade)
    (hlen : ts.length = es.length) :
    ((∀ p ∈ ts.zip es, goodTradePair p.1 p.2) → checkExpTrades ts es = true) ∧
    ((∃ p ∈ ts.zip es, ¬ goodTradePair p.1 p.2) → checkExpTrades ts es = false) := by
  constructor
  · intro hall
    unfold checkExpTrades
    split
    · rfl
    · rw [if_neg (by simp [hlen])]
      simp only [List.all_eq_true]
      intro p hp
      exact (tradePairMatches_iff p.1 p.2).mpr (hall p hp)
  · rintro ⟨p, hp, hbad⟩
    have hzlen : 0 < (ts.zip es).length :=
      List.length_pos.mpr (List.ne_nil_of_mem hp)
    rw [List.length_zip] at hzlen
    have h1 : ts.length ≠ 0 := by omega
    have h2 : es.length ≠ 0 := by omega
    unfold checkExpTrades
    rw [if_neg (by simp [h1, h2]), if_neg (by simp [hlen])]
    simp only [List.all_eq_false]
    exact ⟨p, hp, fun hm => hbad ((tradePairMatches_iff p.1 p.2).mp hm)⟩

/-- Witness for C2: Scenario D, a one-trade ledger stored by the two
pipelines in opposite canonical orientation (and with close times that
differ below the second) is reported consistent. -/
theorem checkExpTrades_matches_witness :
    [tPrimary].length = [tCandidate].length ∧
    checkExpTrades [tPrimary] [tCandidate] = true :=
  ⟨rfl,
   (checkExpTrades_matches [tPrimary] [tCandidate] rfl).1 (by
     intro p hp
     simp only [List.zip, List.zipWith, List.mem_singleton] at hp
     subst hp
     decide)⟩

/-- C7: when either fetched sequence is empty — including one empty and
the other non-empty — `CheckExpTrades` reports the ledger vacuously
consistent. -/
theorem checkExpTrades_vacuous_on_empty (ts es : List Trade)
    (h : ts = [] ∨ es = []) :
    checkExpTrades ts es = true := by
  rcases h with h | h <;> subst h <;> simp [checkExpTrades]

/-- Witness for C7: an empty primary sequence against a non-empty
candidate sequence is reported consistent. -/
theorem checkExpTrades_vacuous_on_empty_witness :
    (([] : List Trade) = [] ∨ [tPrimary] = []) ∧
    checkExpTrades [] [tPrimary] = true :=
  ⟨Or.inl rfl, checkExpTrades_vacuous_on_empty [] [tPrimary] (Or.inl rfl)⟩

/-- C8: when both fetched sequences are non-empty and their lengths
differ, `CheckExpTrades` reports false. -/
theorem checkExpTrades_length_mismatch (ts es : List Trade)
    (h1 : ts ≠ []) (h2 : es ≠ []) (h3 : ts.length ≠ es.length) :
    checkExpTrades ts es = false := by
  have hl1 : ts.length ≠ 0 := fun h => h1 (List.length_eq_zero.mp h)
  have hl2 : es.length ≠ 0 := fun h => h2 (List.length_eq_zero.mp h)
  unfold checkExpTrades
  rw [if_neg (by simp [hl1, hl2]), if_pos (by simp [h3])]

/-- Witness for C8: Scenario E, trade counts 5 versus 4 for the same
ledger are reported inconsistent. -/
theorem checkExpTrades_length_mismatch_witness :
    List.replicate 5 tPrimary ≠ [] ∧
    List.replicate 4 tPrimary ≠ [] ∧
    (List.replicate 5 tPrimary).length ≠ (List.replicate 4 tPrimary).length ∧
    checkExpTrades (List.replicate 5 tPrimary) (List.replicate 4 tPrimary) = false :=
  ⟨by simp, by simp, by simp,
   checkExpTrades_length_mismatch (List.replicate 5 tPrimary)
     (List.replicate 4 tPrimary) (by simp) (by simp) (by simp)⟩

/-- C3 counterexample: for ledger sequence 5, the filter added by
`ForLedger` admits the operation id `toid(6)`, which lies outside the
half-open range `[toid(5), toid(6))` and belongs to ledger 6. -/
theorem forLedger_includes_next_ledger_boundary :
    forLedgerWhere 5 (toidForLedger 6) ∧
    opidBelongsToLedger 6 (toidForLedger 6) ∧
    ¬ toidForLedger 6 < toidForLedger 6 := by
  simp only [forLedgerWhere, opidBelongsToLedger, toidForLedger]
  norm_num

/-- C3 (amended): `ForLedger` restricts results to rows whose operation id
lies in the closed range `[toid(seq), toid(seq + 1)]` — every operation id
belonging to ledger `seq` plus the single boundary id `toid(seq + 1)` of
ledger `seq + 1` — and orders results by `(operation_id, order)` in the
requested direction. -/
theorem forLedger_filter_spec (q : TradesQ) (seq : Int) (ord : String) :
    (ForLedger q seq ord).sql.wheres =
      q.sql.wheres ++ [fun opid _ => forLedgerWhere seq opid] ∧
    (ForLedger q seq ord).sql.orderBys =
      q.sql.orderBys ++ [TradeOrdering.byOpIdAndOrder ord] ∧
    (∀ opid, forLedgerWhere seq opid ↔
      (opidBelongsToLedger seq opid ∨ opid = toidForLedger (seq + 1))) := by
  refine ⟨rfl, rfl, fun opid => ?_⟩
  simp only [forLedgerWhere, opidBelongsToLedger, toidForLedger]
  omega

/-- C4: the compound cursor predicate of `Page` is a strict lexicographic
comparison on `(operation_id, order)`: the ascending predicate holds
exactly when `(operation_id, order) > (op, idx)`, and the descending one
exactly when `(operation_id, order) < (op, idx)`. -/
theorem pageWhere_lex_equiv (op idx opid ord : Int) :
    (pageWhereAsc op idx opid ord ↔ lexLt (op, idx) (opid, ord)) ∧
    (pageWhereDesc op idx opid ord ↔ lexLt (opid, ord) (op, idx)) := by
  simp only [pageWhereAsc, pageWhereDesc, lexLt]
  omega

/-- C9: a malformed cursor makes `Page` record the parse error, and
`Select` then returns that error whatever the store would answer — the
query is never executed. -/
theorem page_invalid_cursor (q : TradesQ) (pq : PageQuery) (e : QueryError)
    (hq : q.err = none) (hc : cursorInt64Pair pq.cursor = Except.error e) :
    (Page q pq).err = some e ∧
    ∀ run, selectTrades (Page q pq) run = Except.error e := by
  refine ⟨?_, fun run => ?_⟩ <;> simp [Page, selectTrades, hq, hc]

/-- Witness for C9: the cursor `foo` is rejected, the error is recorded,
and `Select` returns it even against a store that would answer with an
empty result. -/
theorem page_invalid_cursor_witness :
    tradesQ0.err = none ∧
    cursorInt64Pair pqMalformed.cursor = Except.error QueryError.invalidCursorError ∧
    (Page tradesQ0 pqMalformed).err = some QueryError.invalidCursorError ∧
    selectTrades (Page tradesQ0 pqMalformed) (fun _ => Except.ok []) =
      Except.error QueryError.invalidCursorError :=
  ⟨rfl, rfl,
   (page_invalid_cursor tradesQ0 pqMalformed QueryError.invalidCursorError rfl rfl).1,
   (page_invalid_cursor tradesQ0 pqMalformed QueryError.invalidCursorError rfl rfl).2 _⟩

/-- C10 counterexample: a page query whose order direction is neither
`asc` nor `desc` but whose cursor is malformed makes `Page` record an
error, and the row limit is not applied. -/
theorem page_unknown_direction_cex :
    pqBadBoth.order ≠ "asc" ∧ pqBadBoth.order ≠ "desc" ∧
    (Page tradesQ0 pqBadBoth).err = some QueryError.invalidCursorError ∧
    (Page tradesQ0 pqBadBoth).sql.limit = none :=
  ⟨by decide, by decide, rfl, rfl⟩

/-- C10 (amended): for a builder with no pending error and a page query
whose cursor parses as a two-integer pair, if the order direction is
neither `asc` nor `desc` then `Page` adds no cursor predicate and no
ordering clause and reports no error — only the row limit is applied. -/
theorem page_unknown_direction (q : TradesQ) (pq : PageQuery) (op idx : Int)
    (hq : q.err = none) (hc : cursorInt64Pair pq.cursor = Except.ok (op, idx))
    (ha : pq.order ≠ "asc") (hd : pq.order ≠ "desc") :
    Page q pq = { q with sql := { q.sql with limit := some pq.limit } } := by
  unfold Page
  rw [hq, hc]
  simp only [Option.isSome_none, Bool.false_eq_true, if_false]
  rw [hq]

/-- Witness for C10: a page query with cursor `100-1` and direction
`sideways` leaves the builder untouched apart from the limit. -/
theorem page_unknown_direction_witness :
    tradesQ0.err = none ∧
    cursorInt64Pair pqOddDirection.cursor = Except.ok (100, 1) ∧
    pqOddDirection.order ≠ "asc" ∧ pqOddDirection.order ≠ "desc" ∧
    Page tradesQ0 pqOddDirection =
      { tradesQ0 with sql := { tradesQ0.sql with limit := some pqOddDirection.limit } } :=
  ⟨rfl, rfl, by decide, by decide,
   page_unknown_direction tradesQ0 pqOddDirection 100 1 rfl rfl (by decide) (by decide)⟩
